import Mathlib

/-!
Shallow embedding of the core of `drift-labs/solana-mission-control`
(`src/exporter/exporter.go`): the epoch-info TTL cache, the epoch-credit
computation, the vote-accounts metric emission pass (`mustEmitMetrics`),
the status-alert dedup loop (`AlertValidatorStatus`), the collection cycle
(`Collect`) and the block-time differential (`blockTimeDiff`).

Modelling conventions:
- Go `float64` values are modelled as exact rationals (`ℚ`); all values
  flowing through the claims here are small integers or quotients of such,
  where `float64` arithmetic is exact.  The one place Go floating point is
  not exact — division by a zero count, which yields IEEE `NaN` — is kept
  visible in the statements as a division by zero (which is `0` in `ℚ`).
- Upstream RPC calls are parameters: a call site receives the outcome the
  call would produce (`Except Err _`), and the embedding records whether
  the call was actually issued.
- Go `nil`-pointer dereference (a runtime panic) is modelled by `Option`
  with `none` as the panic outcome.
- Metric emissions to the Prometheus channel and notification-channel
  sends are recorded in an `Action` trace, in program order.
-/

set_option autoImplicit false

namespace SolanaMC

/-- Upstream / RPC errors, abstracted to their message. -/
abbrev Err := String

/-- Go struct `types.EpochInfo`, restricted to the field the exporter reads
(`epochInfo.Result.Epoch`). -/
structure EpochInfo where
  epoch : Int
  deriving Repr, DecidableEq

/-- One element of `response.Result.Current` / `response.Result.Delinquent`:
the fields of a vote-account record read by `mustEmitMetrics`. -/
structure VoteAccount where
  nodePubkey : String
  votePubkey : String
  activatedStake : Int
  lastVote : Int
  rootSlot : Int
  commission : Int
  epochVoteAccount : Bool
  epochCredits : List (List Int)
  deriving Repr, DecidableEq

/-- Go struct `types.GetVoteAccountsResponse.Result`: the current and delinquent sets. -/
structure VoteAccountsResult where
  current : List VoteAccount
  delinquent : List VoteAccount
  deriving Repr, DecidableEq

/-- The collector's epoch-info cache fields
(`cachedEpochInfo`, `cachedEpochTime`); `cachedEpochInfo = none` models the
Go `nil` pointer, `cachedEpochTime` is a clock reading in seconds. -/
structure CacheState where
  cachedEpochInfo : Option EpochInfo
  cachedEpochTime : Int
  deriving Repr, DecidableEq

deriving instance DecidableEq for Except

/-- Result of one `getCachedEpochInfo` call: the returned
`(*types.EpochInfo, error)` pair, the collector state after the call, and
whether the upstream `monitor.GetEpochInfo` query was issued. -/
structure CacheLookup where
  result : Except Err EpochInfo
  state : CacheState
  queried : Bool
  deriving Repr, DecidableEq

/-- Embeds `getCachedEpochInfo` (exporter.go 587–601).  `now` is the current
clock in seconds (`time.Since t = now - t`); `fetch` is the outcome the
upstream `monitor.GetEpochInfo` call would produce if issued.  A live entry
(`cachedEpochInfo != nil && now - cachedEpochTime < 30`) is returned without
querying; otherwise the query is issued, and only on success are both cache
fields replaced. -/
def getCachedEpochInfo (st : CacheState) (now : Int) (fetch : Except Err EpochInfo) :
    CacheLookup :=
  let refresh : CacheLookup :=
    match fetch with
    | .error e => ⟨.error e, st, true⟩
    | .ok ei => ⟨.ok ei, ⟨some ei, now⟩, true⟩
  match st.cachedEpochInfo with
  | some v => if now - st.cachedEpochTime < 30 then ⟨.ok v, st, false⟩ else refresh
  | none => refresh

/-- A sequence of `getCachedEpochInfo` calls: each element of the list is
`(now, outcome of the upstream query if issued)`.  Returns the final cache
state and how many upstream queries were issued. -/
def runLookups : CacheState → List (Int × Except Err EpochInfo) → CacheState × Nat
  | st, [] => (st, 0)
  | st, (now, fetch) :: rest =>
    let r := getCachedEpochInfo st now fetch
    let (stF, n) := runLookups r.state rest
    (stF, (if r.queried then 1 else 0) + n)

/-- The credit-scanning loop of `calcualteEpochVoteCredits` (386–394): the
first tuple of length ≥ 3 whose first element equals `epoch` supplies
`(currentCredits, previousCredits)`; otherwise both remain `0`. -/
def epochCreditsScan (epoch : Int) : List (List Int) → Int × Int
  | [] => (0, 0)
  | c :: rest =>
    if 3 ≤ c.length then
      if c.getD 0 0 = epoch then (c.getD 1 0, c.getD 2 0)
      else epochCreditsScan epoch rest
    else epochCreditsScan epoch rest

/-- Embeds `calcualteEpochVoteCredits` (377–399).  The Go code logs a failed
cache lookup but then unconditionally evaluates `epochInfo.Result.Epoch`;
when `getCachedEpochInfo` failed it returned `(nil, err)`, so that access is
a nil-pointer dereference — a runtime panic, modelled by `none`. -/
def calcualteEpochVoteCredits (st : CacheState) (now : Int)
    (fetch : Except Err EpochInfo) (credits : List (List Int)) :
    Option ((ℚ × ℚ) × CacheState) :=
  let r := getCachedEpochInfo st now fetch
  match r.result with
  | .error _ => none
  | .ok ei =>
    let (cur, prev) := epochCreditsScan ei.epoch credits
    some (((cur : ℚ), (prev : ℚ)), r.state)

/-- One observable action of the exporter: a gauge emission
(`prometheus.MustNewConstMetric` with the metric's name, value and label
values), an invalid-metric emission (`prometheus.NewInvalidMetric`), or a
notification-channel send attempt. -/
inductive Action where
  | metric (name : String) (value : ℚ) (labels : List String)
  | invalid (name : String)
  | send (channel : String) (msg : String)
  deriving Repr, DecidableEq

/-- The external inputs of one `AlertValidatorStatus` call: the current
wall-clock time formatted at minute resolution (`time.Kitchen`), the
configured alert timings after the parse/re-format loop of lines 408–413,
and, for the i-th `querier.AlertStatusCountFromPrometheus` call of the
invocation, the string it returns (its error return is discarded by the Go
call site, which keeps only the string). -/
structure AlertEnv where
  currentTime : String
  alertTimings : List String
  dedup : Nat → String

/-- The time-slot loop of `AlertValidatorStatus` (419–444).  `count` is the
running sequence counter (a Go `float64`), `qi` counts dedup queries made so
far in this invocation.  On a matching slot with dedup string `"false"` the
three channels are attempted, a `"true"`-labelled alert-count metric is
emitted and the counter is incremented — and the loop continues; on any
other dedup string a `"false"`-labelled metric is emitted and the function
returns.  Returns the action trace and the final counter. -/
def alertLoop (msg currentTime : String) (dedup : Nat → String) :
    List String → ℚ → Nat → List Action × ℚ
  | [], count, _ => ([], count)
  | t :: rest, count, qi =>
    if currentTime = t then
      if dedup qi = "false" then
        let r := alertLoop msg currentTime dedup rest (count + 1) (qi + 1)
        (Action.send "telegram" msg :: Action.send "email" msg ::
          Action.send "slack" msg ::
          Action.metric "solana_val_alert_count" count ["true"] :: r.1, r.2)
      else
        ([Action.metric "solana_val_alert_count" count ["false"]], count)
    else alertLoop msg currentTime dedup rest count qi

/-- Embeds `AlertValidatorStatus` (402–445): runs the time-slot loop with
`count = 0` and no dedup queries made yet. -/
def AlertValidatorStatus (msg : String) (env : AlertEnv) : List Action × ℚ :=
  alertLoop msg env.currentTime env.dedup env.alertTimings 0 0

/-- The loop of lines 249–258: for every account of `current ++ delinquent`
whose node pubkey is the tracked one, emit its last-vote and root-slot
gauges. -/
def lastVoteLoop (pk : String) : List VoteAccount → List Action
  | [] => []
  | account :: rest =>
    (if account.nodePubkey = pk then
      [Action.metric "solana_validator_last_vote" (account.lastVote : ℚ)
        [account.votePubkey, account.nodePubkey],
       Action.metric "solana_validator_root_slot" (account.rootSlot : ℚ)
        [account.votePubkey, account.nodePubkey]]
    else []) ++ lastVoteLoop pk rest

/-- The loop of lines 271–276: `netresult` starts at `0` and is set from the
`lastVote` of the first record of the `current` set whose node pubkey is the
tracked one (then `break`). -/
def netVoteResult (pk : String) : List VoteAccount → ℚ
  | [] => 0
  | vote :: rest =>
    if vote.nodePubkey = pk then (vote.lastVote : ℚ) else netVoteResult pk rest

/-- The per-account emissions of the `current` loop body for a record whose
node pubkey is the tracked one (lines 290–329), given the epoch credits
`(cC, pC)` computed for it and the network-side `net` last vote. -/
def trackedCurrentActions (vote : VoteAccount) (cC pC net : ℚ) (env : AlertEnv) :
    List Action :=
  [Action.metric "solana_vote_account" (if vote.epochVoteAccount then 1 else 0)
     ["current"],
   Action.metric "solana_val_commission" (vote.commission : ℚ)
     [toString vote.commission],
   Action.metric "solana_validator_delinquent" 0 [vote.votePubkey, vote.nodePubkey],
   Action.metric "solana_validator_activated_stake"
     ((vote.activatedStake : ℚ) / 1000000000) [vote.votePubkey, vote.nodePubkey]]
  ++ (if ¬vote.epochVoteAccount ∧ vote.activatedStake ≤ 0 then
        (AlertValidatorStatus "Solana validator is NOT VOTING" env).1
          ++ [Action.metric "solana_val_status" 0 ["Jailed"]]
      else
        (AlertValidatorStatus "Solana validator is VOTING" env).1
          ++ [Action.metric "solana_val_status" 1 ["Voting"]])
  ++ [Action.metric "solana_validator_vote_height" (vote.lastVote : ℚ) ["validator"],
      Action.metric "solana_network_vote_height" net ["network"],
      Action.metric "solana_vote_height_diff" (net - (vote.lastVote : ℚ))
        ["vote height difference"],
      Action.metric "solana_validator_vote_credits" cC ["current"],
      Action.metric "solana_validator_vote_credits" pC ["previous"]]

/-- The `response.Result.Current` loop of `mustEmitMetrics` (281–331).
`rc, rp` are the running current/previous credit sums (`float64`) and
`cc, pc` the qualifying-validator counts (`int64`); a record qualifies when
both of its looked-up credits are nonzero.  Each iteration calls
`calcualteEpochVoteCredits`, which threads the epoch-info cache state and
whose failure (`none`) is the nil-dereference panic.  Returns the trace,
final sums, counts and cache state. -/
def currentLoop (pk : String) (net : ℚ) (env : AlertEnv) (now : Int)
    (fetch : Except Err EpochInfo) :
    List VoteAccount → CacheState → ℚ → ℚ → Int → Int →
    Option (List Action × ℚ × ℚ × Int × Int × CacheState)
  | [], st, rc, rp, cc, pc => some ([], rc, rp, cc, pc, st)
  | vote :: rest, st, rc, rp, cc, pc =>
    match calcualteEpochVoteCredits st now fetch vote.epochCredits with
    | none => none
    | some ((cC, pC), st') =>
      let acc : ℚ × ℚ × Int × Int :=
        if cC ≠ 0 ∧ pC ≠ 0 then (rc + cC, rp + pC, cc + 1, pc + 1)
        else (rc, rp, cc, pc)
      let mine : List Action :=
        if vote.nodePubkey = pk then trackedCurrentActions vote cC pC net env
        else []
      match currentLoop pk net env now fetch rest st' acc.1 acc.2.1 acc.2.2.1 acc.2.2.2 with
      | none => none
      | some (tr, out) => some (mine ++ tr, out)

/-- The `response.Result.Delinquent` loop of `mustEmitMetrics` (339–373):
for a matching record, emit the delinquent-commission and delinquent gauges
and attempt the three notification channels (message spelling as in the
source). -/
def delinquentLoop (pk : String) : List VoteAccount → List Action
  | [] => []
  | vote :: rest =>
    (if vote.nodePubkey = pk then
      [Action.metric "solana_val_delinquuent_commission" (vote.commission : ℚ)
        [toString vote.commission],
       Action.metric "solana_validator_delinquent" 1 [vote.votePubkey, vote.nodePubkey],
       Action.send "telegram" "Your solana validator is in DELINQUENT state",
       Action.send "email" "Your solana validator is in DELINQUNET state",
       Action.send "slack" "Your solana validator is in DELINQUENT state"]
    else []) ++ delinquentLoop pk rest

/-- Embeds `mustEmitMetrics` (243–374), with the collection instant fixed:
`now` is the clock used for every `getCachedEpochInfo` call of the pass and
`fetch` the outcome an upstream epoch-info query would produce during it.
The opening `_, err := c.getCachedEpochInfo()` call only logs its error but
does update the cache state; then the network last-vote is taken from the
`current` set, the `current` loop runs (possibly panicking, `none`), the two
network-average credit gauges are emitted as `sum / count` with **no guard
on a zero count** (`0/0` is IEEE `NaN` in Go; `ℚ` renders it as `0`), and
the delinquent loop runs.  Returns the trace and final cache state. -/
def mustEmitMetrics (pk : String) (resp : VoteAccountsResult) (st : CacheState)
    (now : Int) (fetch : Except Err EpochInfo) (env : AlertEnv) :
    Option (List Action × CacheState) :=
  let hdr : List Action :=
    [Action.metric "solana_active_validators" (resp.delinquent.length : ℚ)
       ["delinquent"],
     Action.metric "solana_active_validators" (resp.current.length : ℚ)
       ["current"]]
  let lv := lastVoteLoop pk (resp.current ++ resp.delinquent)
  let r0 := getCachedEpochInfo st now fetch
  let net := netVoteResult pk resp.current
  match currentLoop pk net env now fetch resp.current r0.state 0 0 0 0 with
  | none => none
  | some (tr, rc, rp, cc, pc, stF) =>
    some (hdr ++ lv ++ tr
      ++ [Action.metric "solana_network_vote_credits" (rc / (cc : ℚ)) ["current"],
          Action.metric "solana_network_vote_credits" (rp / (pc : ℚ)) ["previous"]]
      ++ delinquentLoop pk resp.delinquent, stF)

/-- The non-vote-account tail of `Collect` (473–516), in program order:
node version, slot leader, current slot, transaction count.  `version` is
`version.Result.SolanaCore` (the Go call site discards the query error, so a
failed query leaves the zero value `""` and nothing is emitted); a failed
slot-leader query emits an invalid metric; a failed current-slot query is
only logged (no emission); the transaction-count error is discarded
(`count, _ :=`) and its gauge is always emitted.  `txLabel` stands for
`utils.NearestThousandFormat(count)`, a formatting helper outside these
sources. -/
def collectRest (version : String) (leader : Except Err String)
    (slot : Except Err Int) (txCount : Int) (txLabel : String) : List Action :=
  (if version ≠ "" then [Action.metric "solana_node_version" 1 [version]] else [])
  ++ (match leader with
      | .error _ => [Action.invalid "solana_slot_leader"]
      | .ok l => if l ≠ "" then [Action.metric "solana_slot_leader" 1 [l]] else [])
  ++ (match slot with
      | .error _ => []
      | .ok s => [Action.metric "solana_current_slot" (s : ℚ) [toString s]])
  ++ [Action.metric "solana_tx_count" (txCount : ℚ) [txLabel]]

/-- The five `prometheus.NewInvalidMetric` emissions of the vote-accounts
failure branch of `Collect` (464–468). -/
def voteAccInvalids : List Action :=
  [Action.invalid "solana_active_validators",
   Action.invalid "solana_validator_activated_stake",
   Action.invalid "solana_validator_last_vote",
   Action.invalid "solana_validator_root_slot",
   Action.invalid "solana_validator_delinquent"]

/-- Embeds `Collect` (457–517): on a vote-accounts failure emit the five
invalid gauges, otherwise run `mustEmitMetrics`; in both cases continue with
the remaining independent queries (`collectRest`).  `none` propagates a
panic of the emission pass. -/
def Collect (voteAcc : Except Err VoteAccountsResult) (pk : String)
    (st : CacheState) (now : Int) (fetch : Except Err EpochInfo) (env : AlertEnv)
    (version : String) (leader : Except Err String) (slot : Except Err Int)
    (txCount : Int) (txLabel : String) : Option (List Action) :=
  match voteAcc with
  | .error _ =>
    some (voteAccInvalids ++ collectRest version leader slot txCount txLabel)
  | .ok accs =>
    match mustEmitMetrics pk accs st now fetch env with
    | none => none
    | some (tr, _) => some (tr ++ collectRest version leader slot txCount txLabel)

/-- Constant `math.MaxInt64`: `time.Duration` is an `int64` of nanoseconds. -/
def maxInt64 : Int := 9223372036854775807

/-- Constant `math.MinInt64`. -/
def minInt64 : Int := -9223372036854775808

/-- Value of `time.Unix(bt,0).Sub(time.Unix(pvt,0)).Seconds()` for unix-second
inputs: the difference in nanoseconds as a `time.Duration`, which saturates
at the `int64` bounds on overflow, divided by 10⁹.  (`Seconds()` computes in
`float64`; for every value reachable here the 2-decimal formatting below
absorbs that representation error, so the exact rational is used.) -/
def subSeconds (bt pvt : Int) : ℚ :=
  let ns : Int := (bt - pvt) * 1000000000
  if ns > maxInt64 then (maxInt64 : ℚ) / 1000000000
  else if ns < minInt64 then (minInt64 : ℚ) / 1000000000
  else (ns : ℚ) / 1000000000

/-- The numeric effect of `fmt.Sprintf("%.2f", q)` followed by
`strconv.ParseFloat`: the value rounded to hundredths.  (For the magnitudes
produced by `blockTimeDiff` the canonical 2-decimal string re-parses
exactly; the inputs are whole seconds, so the `%.2f` tie-breaking rule is
never exercised.) -/
def roundTwoDecimals (q : ℚ) : ℚ := ((round (q * 100) : ℤ) : ℚ) / 100

/-- The canonical 2-decimal string `fmt.Sprintf("%.2f", q)` for the
nonnegative values produced by `blockTimeDiff`. -/
def fmtTwoDecimals (q : ℚ) : String :=
  let c : Int := round (q * 100)
  toString (c / 100) ++ "." ++ (if c % 100 < 10 then "0" else "")
    ++ toString (c % 100)

/-- Embeds `blockTimeDiff` (569–584): the difference in seconds, negated if
negative, then formatted to two decimals and re-parsed; returns the
re-parsed value and the canonical string. -/
def blockTimeDiff (bt pvt : Int) : ℚ × String :=
  let sub := subSeconds bt pvt
  let diff := if sub < 0 then -sub else sub
  (roundTwoDecimals diff, fmtTwoDecimals diff)

/-- Number of send attempts on one channel in a trace. -/
def countSends (channel : String) (tr : List Action) : Nat :=
  tr.countP fun a =>
    match a with
    | .send c _ => c = channel
    | _ => false

/-- Number of send attempts on any channel in a trace. -/
def countAllSends (tr : List Action) : Nat :=
  tr.countP fun a =>
    match a with
    | .send _ _ => true
    | _ => false

/-- The values of the `solana_vote_height_diff` gauges of a trace, in
emission order. -/
def voteHeightDiffs (tr : List Action) : List ℚ :=
  tr.filterMap fun a =>
    match a with
    | .metric name v _ => if name = "solana_vote_height_diff" then some v else none
    | _ => none

/-- Modelled from the spec (§4.2, epoch-credit lookup), for comparison with
`epochCreditsScan`: scan for the first 3-tuple whose first element equals
`epoch` and return its `(currentCredits, previousCredits)`, or `(0, 0)` if
no match. -/
def epochCreditLookupSpec (epoch : Int) (credits : List (List Int)) : Int × Int :=
  match credits.find? (fun c => decide (3 ≤ c.length) && decide (c.getD 0 0 = epoch)) with
  | some c => (c.getD 1 0, c.getD 2 0)
  | none => (0, 0)

/-- An alert environment whose current time matches no configured slot, so
`AlertValidatorStatus` takes no action. -/
def quietEnv : AlertEnv := ⟨"11:11PM", [], fun _ => ""⟩

/-! ## C1 — network-average vote credits -/

/-- C1: the claim requires that with zero qualifying validators the engine
reports an explicit "no data" outcome and never NaN or a silent zero.  The
code has no such guard: on a snapshot whose `current` set is empty (zero
qualifying validators) `mustEmitMetrics` still emits both
`solana_network_vote_credits` gauges, with value `sum / count` at
`count = 0` — `0.0 / 0.0`, which is IEEE `NaN` in the Go `float64`
computation (rendered `0` in the `ℚ` model, a silent zero). -/
theorem networkVoteCredits_unguarded_division :
    mustEmitMetrics "me" ⟨[], []⟩ ⟨none, 0⟩ 0 (.ok ⟨5⟩) quietEnv =
      some ([Action.metric "solana_active_validators" 0 ["delinquent"],
             Action.metric "solana_active_validators" 0 ["current"],
             Action.metric "solana_network_vote_credits" ((0 : ℚ) / (0 : ℚ))
               ["current"],
             Action.metric "solana_network_vote_credits" ((0 : ℚ) / (0 : ℚ))
               ["previous"]],
            ⟨some ⟨5⟩, 0⟩) := by
  rfl

/-! ## C2 — epoch-credit computation on a failed epoch-info lookup -/

/-- C2: the claim states the epoch-credit computation is total and never
dereferences an absent epoch-info value when the cache lookup fails.  It is
not: with an empty cache and a failing upstream fetch,
`calcualteEpochVoteCredits` evaluates `epochInfo.Result.Epoch` on the `nil`
pointer returned by `getCachedEpochInfo` — a runtime panic (`none`), not a
per-metric degradation. -/
theorem calcualteEpochVoteCredits_panics_on_failed_lookup :
    calcualteEpochVoteCredits ⟨none, 0⟩ 5 (.error "rpc down") [[1, 2, 3]]
      = none := by
  decide

/-! ## C5 — cache freshness window -/

/-- C5: a lookup whose live entry satisfies `now − fetchedAt < 30` returns
the cached value without issuing any upstream query and leaves the state
unchanged; consequently, over any sequence of lookups all within 30 seconds
of a successful fetch, zero further upstream queries are issued (so at most
the one query that populated the entry occurs in the window). -/
theorem cache_window_single_query :
    (∀ (v : EpochInfo) (st : CacheState) (now : Int) (fetch : Except Err EpochInfo),
        st.cachedEpochInfo = some v → now - st.cachedEpochTime < 30 →
        getCachedEpochInfo st now fetch = ⟨.ok v, st, false⟩) ∧
    (∀ (v : EpochInfo) (t0 : Int) (calls : List (Int × Except Err EpochInfo)),
        (∀ c ∈ calls, c.1 - t0 < 30) →
        runLookups ⟨some v, t0⟩ calls = (⟨some v, t0⟩, 0)) := by
  have fresh : ∀ (v : EpochInfo) (st : CacheState) (now : Int)
      (fetch : Except Err EpochInfo),
      st.cachedEpochInfo = some v → now - st.cachedEpochTime < 30 →
      getCachedEpochInfo st now fetch = ⟨.ok v, st, false⟩ := by
    intro v st now fetch hv hlt
    unfold getCachedEpochInfo
    rw [hv]
    simp [hlt]
  refine ⟨fresh, ?_⟩
  intro v t0 calls hcalls
  induction calls with
  | nil => rfl
  | cons c rest ih =>
    have hc : c.1 - t0 < 30 := hcalls c (List.mem_cons_self c rest)
    have hrest : ∀ d ∈ rest, d.1 - t0 < 30 := fun d hd =>
      hcalls d (List.mem_cons_of_mem c hd)
    unfold runLookups
    rw [fresh v ⟨some v, t0⟩ c.1 c.2 rfl hc]
    simp [ih hrest]

/-- Witness for C5 at a concrete input: entry fetched at time 0, lookups at
times 5 and 29 (both inside the window), no upstream query issued and the
entry untouched. -/
theorem cache_window_single_query_witness :
    runLookups ⟨some ⟨3⟩, 0⟩ [(5, .error "e"), (29, .ok ⟨7⟩)]
      = (⟨some ⟨3⟩, 0⟩, 0) :=
  cache_window_single_query.2 ⟨3⟩ 0 [(5, .error "e"), (29, .ok ⟨7⟩)] (by decide)

/-! ## C6 — failed refresh leaves the entry unchanged -/

/-- C6: on a cache miss (no entry, or the entry is at least 30 seconds old)
whose refresh fails, `getCachedEpochInfo` returns the error and leaves both
the cached value and its fetch timestamp exactly as they were (the whole
`CacheState` is returned unchanged), and the failed call does not return the
stale value. -/
theorem cache_failed_refresh_preserves_entry :
    ∀ (st : CacheState) (now : Int) (e : Err),
      (st.cachedEpochInfo = none ∨ 30 ≤ now - st.cachedEpochTime) →
      getCachedEpochInfo st now (.error e) = ⟨.error e, st, true⟩ := by
  intro st now e hmiss
  unfold getCachedEpochInfo
  match hv : st.cachedEpochInfo with
  | none => rfl
  | some v =>
    rcases hmiss with hnone | hstale
    · rw [hv] at hnone
      exact absurd hnone (by simp)
    · simp [not_lt.2 hstale]

/-- Witness for C6 at a concrete input: a 50-second-old entry, failed
refresh; the error is returned and the stale entry (value and timestamp)
survives untouched. -/
theorem cache_failed_refresh_preserves_entry_witness :
    getCachedEpochInfo ⟨some ⟨3⟩, 0⟩ 50 (.error "boom")
      = ⟨.error "boom", ⟨some ⟨3⟩, 0⟩, true⟩ :=
  cache_failed_refresh_preserves_entry ⟨some ⟨3⟩, 0⟩ 50 "boom" (by decide)

/-! ## C7 — epoch-credit lookup -/

/-- C7: for every `epochCredits` sequence and cached epoch, the credit scan
returns `(currentCredits, previousCredits)` from the first 3-tuple whose
first element equals the epoch and `(0, 0)` when no tuple matches (the
spec-side `epochCreditLookupSpec` formulates exactly that); in particular,
through `calcualteEpochVoteCredits` with a live cached epoch,
`[[100,50,40],[101,60,50]]` yields `(60, 50)` at epoch 101 and `(0, 0)` at
epoch 999. -/
theorem epochCreditsScan_first_match :
    (∀ (epoch : Int) (credits : List (List Int)),
        epochCreditsScan epoch credits = epochCreditLookupSpec epoch credits) ∧
    calcualteEpochVoteCredits ⟨some ⟨101⟩, 0⟩ 0 (.error "e")
        [[100, 50, 40], [101, 60, 50]]
      = some ((60, 50), ⟨some ⟨101⟩, 0⟩) ∧
    calcualteEpochVoteCredits ⟨some ⟨999⟩, 0⟩ 0 (.error "e")
        [[100, 50, 40], [101, 60, 50]]
      = some ((0, 0), ⟨some ⟨999⟩, 0⟩) := by
  refine ⟨?_, by rfl, by rfl⟩
  intro epoch credits
  induction credits with
  | nil => rfl
  | cons c rest ih =>
    simp only [epochCreditsScan]
    by_cases h1 : 3 ≤ c.length
    · by_cases h2 : c.getD 0 0 = epoch
      · rw [if_pos h1, if_pos h2]
        unfold epochCreditLookupSpec
        rw [List.find?_cons_of_pos _
          (by show (decide _ && decide _) = true
              rw [decide_eq_true h1, decide_eq_true h2]; rfl)]
      · rw [if_pos h1, if_neg h2, ih]
        unfold epochCreditLookupSpec
        rw [List.find?_cons_of_neg _
          (by show ¬(decide _ && decide _) = true
              rw [decide_eq_false h2, Bool.and_false]
              exact Bool.false_ne_true)]
    · rw [if_neg h1, ih]
      unfold epochCreditLookupSpec
      rw [List.find?_cons_of_neg _
        (by show ¬(decide _ && decide _) = true
            rw [decide_eq_false h1, Bool.false_and]
            exact Bool.false_ne_true)]


/-! ## C9 — block-time differential -/

/-- Rounding to hundredths fixes every integer. -/
theorem roundTwoDecimals_intCast (m : ℤ) : roundTwoDecimals ((m : ℤ) : ℚ) = (m : ℚ) := by
  unfold roundTwoDecimals
  have h : ((m : ℚ) * 100) = ((m * 100 : ℤ) : ℚ) := by push_cast; ring
  rw [h, round_intCast]
  push_cast
  field_simp

/-- Without `time.Duration` saturation, the folded absolute difference is
the integer absolute difference. -/
theorem absDiffSeconds_eq (t1 t2 : Int) (h : |t1 - t2| * 1000000000 ≤ maxInt64) :
    (if subSeconds t1 t2 < 0 then -subSeconds t1 t2 else subSeconds t1 t2)
      = ((|t1 - t2| : ℤ) : ℚ) := by
  have hpos : (0 : ℤ) < 1000000000 := by norm_num
  have hub : (t1 - t2) * 1000000000 ≤ maxInt64 :=
    le_trans (mul_le_mul_of_nonneg_right (le_abs_self _) (le_of_lt hpos)) h
  have hlb : -((t1 - t2) * 1000000000) ≤ maxInt64 := by
    rw [← neg_mul]
    exact le_trans (mul_le_mul_of_nonneg_right (neg_le_abs _) (le_of_lt hpos)) h
  have hsub : subSeconds t1 t2 = ((t1 - t2 : ℤ) : ℚ) := by
    unfold subSeconds
    rw [if_neg (by omega), if_neg (by unfold maxInt64 at hlb; unfold minInt64; omega)]
    push_cast
    field_simp
  rw [hsub]
  by_cases hneg : t1 - t2 < 0
  · rw [if_pos (by exact_mod_cast hneg), abs_of_neg hneg]
    push_cast
    ring
  · rw [if_neg (by exact_mod_cast hneg), abs_of_nonneg (not_lt.1 hneg)]

/-- C9: for block times whose nanosecond difference fits `time.Duration`
(every realistic unix-second pair), the block-time differential is
symmetric in its arguments, nonnegative, equal to `|t1 − t2|`, and the
numeric value returned is exactly the 2-decimal format/re-parse of that
absolute difference. -/
theorem blockTimeDiff_abs_symm :
    ∀ t1 t2 : Int, |t1 - t2| * 1000000000 ≤ maxInt64 →
      blockTimeDiff t1 t2 = blockTimeDiff t2 t1 ∧
      0 ≤ (blockTimeDiff t1 t2).1 ∧
      (blockTimeDiff t1 t2).1 = ((|t1 - t2| : ℤ) : ℚ) ∧
      (blockTimeDiff t1 t2).1 = roundTwoDecimals ((|t1 - t2| : ℤ) : ℚ) := by
  intro t1 t2 h
  have h' : |t2 - t1| * 1000000000 ≤ maxInt64 := by rwa [abs_sub_comm]
  have e1 := absDiffSeconds_eq t1 t2 h
  have e2 := absDiffSeconds_eq t2 t1 h'
  rw [abs_sub_comm t2 t1] at e2
  unfold blockTimeDiff
  dsimp only
  rw [e1, e2]
  refine ⟨rfl, ?_, ?_, rfl⟩
  · rw [roundTwoDecimals_intCast]
    exact_mod_cast abs_nonneg (t1 - t2)
  · exact roundTwoDecimals_intCast _

/-- Witness for C9 at block times 100 and 58: the differential is `42` both
ways, nonnegative, and equal to the format/re-parse of `|100 − 58|`. -/
theorem blockTimeDiff_abs_symm_witness :
    blockTimeDiff 100 58 = blockTimeDiff 58 100 ∧
    0 ≤ (blockTimeDiff 100 58).1 ∧
    (blockTimeDiff 100 58).1 = ((|(100 : ℤ) - 58| : ℤ) : ℚ) ∧
    (blockTimeDiff 100 58).1 = roundTwoDecimals ((|(100 : ℤ) - 58| : ℤ) : ℚ) :=
  blockTimeDiff_abs_symm 100 58 (by decide)

/-! ## C4 — dispatch only on a "false" dedup signal -/

/-- If no dedup query of the invocation answers `"false"`, the time-slot
loop attempts no notification channel. -/
theorem alertLoop_no_false_no_sends :
    ∀ (timings : List String) (msg ct : String) (dedup : Nat → String)
      (count : ℚ) (qi : Nat),
      (∀ i, dedup i ≠ "false") →
      countAllSends (alertLoop msg ct dedup timings count qi).1 = 0 := by
  intro timings
  induction timings with
  | nil => intro msg ct dedup count qi _; rfl
  | cons t rest ih =>
    intro msg ct dedup count qi h
    simp only [alertLoop]
    by_cases hct : ct = t
    · rw [if_pos hct, if_neg (h qi)]
      rfl
    · rw [if_neg hct]
      exact ih msg ct dedup count qi h

/-- C4: a notification dispatch happens only when the dedup string is
exactly `"false"`: whenever every dedup answer of the evaluation differs
from `"false"` — an error (whose accompanying string is not `"false"`),
`"true"`, or any other value — zero channel dispatch attempts occur. -/
theorem alert_dispatch_only_on_false :
    ∀ (msg : String) (env : AlertEnv),
      (∀ i, env.dedup i ≠ "false") →
      countAllSends (AlertValidatorStatus msg env).1 = 0 := by
  intro msg env h
  exact alertLoop_no_false_no_sends env.alertTimings msg env.currentTime env.dedup 0 0 h

/-- Witness for C4 at a concrete input: the current minute matches the first
configured slot but every dedup answer is `"true"`, so no channel is
attempted. -/
theorem alert_dispatch_only_on_false_witness :
    countAllSends (AlertValidatorStatus "status alert"
      ⟨"10:00AM", ["10:00AM", "10:05AM"], fun _ => "true"⟩).1 = 0 :=
  alert_dispatch_only_on_false "status alert" _ (fun i => by simp)

/-! ## C3 — dispatch on a matching tick with dedup "false" -/

/-- A time-slot loop whose remaining slots never match takes no action and
leaves the counter unchanged. -/
theorem alertLoop_no_match :
    ∀ (timings : List String) (msg ct : String) (dedup : Nat → String)
      (count : ℚ) (qi : Nat),
      timings.count ct = 0 →
      alertLoop msg ct dedup timings count qi = ([], count) := by
  intro timings
  induction timings with
  | nil => intro msg ct dedup count qi _; rfl
  | cons t rest ih =>
    intro msg ct dedup count qi h
    by_cases hct : ct = t
    · subst hct
      rw [List.count_cons_self] at h
      exact absurd h (by simp)
    · rw [List.count_cons_of_ne hct] at h
      simp only [alertLoop]
      rw [if_neg hct]
      exact ih msg ct dedup count qi h

/-- When the current minute occurs exactly once among the slots and the
dedup query at the match answers `"false"`, the loop dispatches once to the
three channels, emits one `"true"`-labelled indicator carrying the incoming
counter, and increments the counter by one. -/
theorem alertLoop_unique_false :
    ∀ (timings : List String) (msg ct : String) (dedup : Nat → String)
      (count : ℚ) (qi : Nat),
      timings.count ct = 1 → dedup qi = "false" →
      alertLoop msg ct dedup timings count qi =
        ([Action.send "telegram" msg, Action.send "email" msg,
          Action.send "slack" msg,
          Action.metric "solana_val_alert_count" count ["true"]], count + 1) := by
  intro timings
  induction timings with
  | nil => intro msg ct dedup count qi h _; simp [List.count_nil] at h
  | cons t rest ih =>
    intro msg ct dedup count qi h hded
    by_cases hct : ct = t
    · subst hct
      rw [List.count_cons_self] at h
      have hrest : rest.count ct = 0 := by omega
      simp only [alertLoop]
      rw [if_pos trivial, if_pos hded,
        alertLoop_no_match rest msg ct dedup (count + 1) (qi + 1) hrest]
    · rw [List.count_cons_of_ne hct] at h
      simp only [alertLoop]
      rw [if_neg hct]
      exact ih msg ct dedup count qi h hded

/-- When the current minute occurs exactly once among the slots and the
dedup query at the match answers anything but `"false"`, the loop emits one
`"false"`-labelled indicator, returns, and dispatches nothing. -/
theorem alertLoop_unique_notfalse :
    ∀ (timings : List String) (msg ct : String) (dedup : Nat → String)
      (count : ℚ) (qi : Nat),
      timings.count ct = 1 → dedup qi ≠ "false" →
      alertLoop msg ct dedup timings count qi =
        ([Action.metric "solana_val_alert_count" count ["false"]], count) := by
  intro timings
  induction timings with
  | nil => intro msg ct dedup count qi h _; simp [List.count_nil] at h
  | cons t rest ih =>
    intro msg ct dedup count qi h hded
    by_cases hct : ct = t
    · simp only [alertLoop]
      rw [if_pos hct, if_neg hded]
    · rw [List.count_cons_of_ne hct] at h
      simp only [alertLoop]
      rw [if_neg hct]
      exact ih msg ct dedup count qi h hded

/-- C3 (amended): when the current minute matches exactly one occurrence in
the configured slot list and the dedup signal answers `"false"`, exactly
one dispatch attempt per channel occurs in the whole evaluation and the
sequence counter increments by one; at the same minute with dedup signal
`"true"`, zero dispatches occur. -/
theorem alert_unique_slot_single_dispatch :
    ∀ (msg : String) (env : AlertEnv),
      env.alertTimings.count env.currentTime = 1 →
      (env.dedup 0 = "false" →
        countSends "telegram" (AlertValidatorStatus msg env).1 = 1 ∧
        countSends "email" (AlertValidatorStatus msg env).1 = 1 ∧
        countSends "slack" (AlertValidatorStatus msg env).1 = 1 ∧
        (AlertValidatorStatus msg env).2 = 1) ∧
      (env.dedup 0 = "true" →
        countAllSends (AlertValidatorStatus msg env).1 = 0) := by
  intro msg env hcount
  constructor
  · intro hded
    unfold AlertValidatorStatus
    rw [alertLoop_unique_false env.alertTimings msg env.currentTime env.dedup 0 0
      hcount hded]
    refine ⟨rfl, rfl, rfl, by norm_num⟩
  · intro hded
    unfold AlertValidatorStatus
    rw [alertLoop_unique_notfalse env.alertTimings msg env.currentTime env.dedup 0 0
      hcount (by rw [hded]; decide)]
    rfl

/-- Witness for C3 (amended) at the spec example: slots 10:00AM and 10:05AM,
current minute 10:00AM; with dedup `"false"` one attempt per channel and a
counter of one, with dedup `"true"` zero attempts. -/
theorem alert_unique_slot_single_dispatch_witness :
    (countSends "telegram" (AlertValidatorStatus "m"
        ⟨"10:00AM", ["10:00AM", "10:05AM"], fun _ => "false"⟩).1 = 1 ∧
      countSends "email" (AlertValidatorStatus "m"
        ⟨"10:00AM", ["10:00AM", "10:05AM"], fun _ => "false"⟩).1 = 1 ∧
      countSends "slack" (AlertValidatorStatus "m"
        ⟨"10:00AM", ["10:00AM", "10:05AM"], fun _ => "false"⟩).1 = 1 ∧
      (AlertValidatorStatus "m"
        ⟨"10:00AM", ["10:00AM", "10:05AM"], fun _ => "false"⟩).2 = 1) ∧
    countAllSends (AlertValidatorStatus "m"
      ⟨"10:00AM", ["10:00AM", "10:05AM"], fun _ => "true"⟩).1 = 0 :=
  ⟨(alert_unique_slot_single_dispatch "m" _ (by decide)).1 rfl,
   (alert_unique_slot_single_dispatch "m" _ (by decide)).2 rfl⟩

/-- C3, counterexample to the claim as stated: with the matching slot
configured twice and the dedup signal answering `"false"` each time, the
single evaluation dispatches twice per channel (the `"false"` branch does
not terminate the tick) and the counter increments by two, not one. -/
theorem alert_duplicate_slot_double_dispatch :
    AlertValidatorStatus "m" ⟨"10:00AM", ["10:00AM", "10:00AM"], fun _ => "false"⟩
      = ([Action.send "telegram" "m", Action.send "email" "m",
          Action.send "slack" "m",
          Action.metric "solana_val_alert_count" 0 ["true"],
          Action.send "telegram" "m", Action.send "email" "m",
          Action.send "slack" "m",
          Action.metric "solana_val_alert_count" 1 ["true"]], 2) ∧
    countSends "telegram" (AlertValidatorStatus "m"
      ⟨"10:00AM", ["10:00AM", "10:00AM"], fun _ => "false"⟩).1 = 2 := by
  constructor
  · norm_num [AlertValidatorStatus, alertLoop]
  · norm_num [AlertValidatorStatus, alertLoop, countSends, List.countP, List.countP.go]
    decide


/-! ## C8 — vote-accounts failure leaves the other metrics unaffected -/

/-- C8: within one collection cycle, a vote-accounts failure changes only
the vote-account portion of the cycle: the version, slot-leader,
current-slot and transaction-count emissions (`collectRest`) are the same
list segment, produced from the same query results, whether the
vote-accounts query fails or succeeds. -/
theorem collect_voteacc_failure_frame :
    ∀ (e : Err) (pk : String) (st : CacheState) (now : Int)
      (fetch : Except Err EpochInfo) (env : AlertEnv) (version : String)
      (leader : Except Err String) (slot : Except Err Int) (txCount : Int)
      (txLabel : String) (accs : VoteAccountsResult) (tr : List Action)
      (stF : CacheState),
      mustEmitMetrics pk accs st now fetch env = some (tr, stF) →
      Collect (.error e) pk st now fetch env version leader slot txCount txLabel
        = some (voteAccInvalids
            ++ collectRest version leader slot txCount txLabel) ∧
      Collect (.ok accs) pk st now fetch env version leader slot txCount txLabel
        = some (tr ++ collectRest version leader slot txCount txLabel) := by
  intro e pk st now fetch env version leader slot txCount txLabel accs tr stF h
  refine ⟨rfl, ?_⟩
  unfold Collect
  dsimp only
  rw [h]

/-- Witness for C8 at a concrete input: same other-query results on both
sides, failing versus succeeding vote-accounts query; the non-vote-account
emissions are the identical `collectRest` segment. -/
theorem collect_voteacc_failure_frame_witness :
    Collect (.error "rpc down") "me" ⟨none, 0⟩ 0 (.ok ⟨5⟩) quietEnv
        "1.18.0" (.ok "ldr") (.ok 42) 7 "7"
      = some (voteAccInvalids
          ++ collectRest "1.18.0" (.ok "ldr") (.ok 42) 7 "7") ∧
    Collect (.ok ⟨[], []⟩) "me" ⟨none, 0⟩ 0 (.ok ⟨5⟩) quietEnv
        "1.18.0" (.ok "ldr") (.ok 42) 7 "7"
      = some ([Action.metric "solana_active_validators" 0 ["delinquent"],
               Action.metric "solana_active_validators" 0 ["current"],
               Action.metric "solana_network_vote_credits" ((0 : ℚ) / (0 : ℚ))
                 ["current"],
               Action.metric "solana_network_vote_credits" ((0 : ℚ) / (0 : ℚ))
                 ["previous"]]
          ++ collectRest "1.18.0" (.ok "ldr") (.ok 42) 7 "7") :=
  collect_voteacc_failure_frame "rpc down" "me" ⟨none, 0⟩ 0 (.ok ⟨5⟩) quietEnv
    "1.18.0" (.ok "ldr") (.ok 42) 7 "7" ⟨[], []⟩ _ ⟨some ⟨5⟩, 0⟩ (by rfl)

/-! ## C10 — vote-height difference -/

/-- A current-set record with the tracked node identity, last vote 10. -/
def cxVa1 : VoteAccount := ⟨"me", "v1", 1, 10, 3, 5, true, []⟩

/-- A second current-set record with the same tracked node identity (one
node running two vote accounts), last vote 20. -/
def cxVa2 : VoteAccount := ⟨"me", "v2", 1, 20, 3, 5, true, []⟩

/-- C10, counterexample to the claim as stated: in a snapshot where the
tracked node identity appears in the current set (twice, under two vote
accounts), the emitted vote-height differences are `[0, -10]` — the second
emission is nonzero, because `netresult` is taken from the first matching
record of the snapshot while `valresult` is re-read from each matching
record. -/
theorem voteHeightDiff_nonzero_duplicate_identity :
    (mustEmitMetrics "me" ⟨[cxVa1, cxVa2], []⟩ ⟨some ⟨7⟩, 0⟩ 0 (.error "e")
        quietEnv).map (fun r => voteHeightDiffs r.1)
      = some [0, -10] := by
  simp +decide [mustEmitMetrics, currentLoop, calcualteEpochVoteCredits,
    getCachedEpochInfo, epochCreditsScan, trackedCurrentActions,
    AlertValidatorStatus, alertLoop, netVoteResult, lastVoteLoop,
    delinquentLoop, voteHeightDiffs, List.filterMap_cons, cxVa1, cxVa2,
    quietEnv]
  norm_num

/-- Extracting the vote-height-diff gauges commutes with trace
concatenation. -/
theorem voteHeightDiffs_append (l1 l2 : List Action) :
    voteHeightDiffs (l1 ++ l2) = voteHeightDiffs l1 ++ voteHeightDiffs l2 :=
  List.filterMap_append l1 l2 _

/-- The alert loop emits no vote-height-diff gauge. -/
theorem voteHeightDiffs_alertLoop :
    ∀ (timings : List String) (msg ct : String) (dedup : Nat → String)
      (count : ℚ) (qi : Nat),
      voteHeightDiffs (alertLoop msg ct dedup timings count qi).1 = [] := by
  intro timings
  induction timings with
  | nil => intro msg ct dedup count qi; rfl
  | cons t rest ih =>
    intro msg ct dedup count qi
    simp only [alertLoop]
    by_cases hct : ct = t
    · rw [if_pos hct]
      by_cases hded : dedup qi = "false"
      · rw [if_pos hded]
        simp only [voteHeightDiffs, List.filterMap_cons]
        simpa [voteHeightDiffs] using ih msg ct dedup (count + 1) (qi + 1)
      · rw [if_neg hded]
        simp [voteHeightDiffs]
    · rw [if_neg hct]
      exact ih msg ct dedup count qi

/-- A status-alert invocation emits no vote-height-diff gauge. -/
theorem voteHeightDiffs_alert (msg : String) (env : AlertEnv) :
    voteHeightDiffs (AlertValidatorStatus msg env).1 = [] :=
  voteHeightDiffs_alertLoop env.alertTimings msg env.currentTime env.dedup 0 0

/-- The tracked-record block emits exactly one vote-height-diff gauge,
carrying `net − lastVote`. -/
theorem voteHeightDiffs_tracked (vote : VoteAccount) (cC pC net : ℚ)
    (env : AlertEnv) :
    voteHeightDiffs (trackedCurrentActions vote cC pC net env)
      = [net - (vote.lastVote : ℚ)] := by
  unfold trackedCurrentActions
  by_cases hv : ¬vote.epochVoteAccount ∧ vote.activatedStake ≤ 0
  · rw [if_pos hv]
    simp only [voteHeightDiffs_append, voteHeightDiffs_alert]
    simp +decide [voteHeightDiffs, List.filterMap_cons]
  · rw [if_neg hv]
    simp only [voteHeightDiffs_append, voteHeightDiffs_alert]
    simp +decide [voteHeightDiffs, List.filterMap_cons]

/-- The last-vote loop emits no vote-height-diff gauge. -/
theorem voteHeightDiffs_lastVoteLoop (pk : String) :
    ∀ accounts : List VoteAccount,
      voteHeightDiffs (lastVoteLoop pk accounts) = [] := by
  intro accounts
  induction accounts with
  | nil => rfl
  | cons a rest ih =>
    simp only [lastVoteLoop]
    by_cases ha : a.nodePubkey = pk
    · rw [if_pos ha, voteHeightDiffs_append, ih]
      simp +decide [voteHeightDiffs, List.filterMap_cons]
    · rw [if_neg ha, voteHeightDiffs_append, ih]
      rfl

/-- The delinquent loop emits no vote-height-diff gauge. -/
theorem voteHeightDiffs_delinquentLoop (pk : String) :
    ∀ accounts : List VoteAccount,
      voteHeightDiffs (delinquentLoop pk accounts) = [] := by
  intro accounts
  induction accounts with
  | nil => rfl
  | cons a rest ih =>
    simp only [delinquentLoop]
    by_cases ha : a.nodePubkey = pk
    · rw [if_pos ha, voteHeightDiffs_append, ih]
      simp +decide [voteHeightDiffs, List.filterMap_cons]
    · rw [if_neg ha, voteHeightDiffs_append, ih]
      rfl

/-- The current loop emits one vote-height-diff gauge per record matching
the tracked identity, carrying `net` minus that record's last vote. -/
theorem voteHeightDiffs_currentLoop (pk : String) (net : ℚ) (env : AlertEnv)
    (now : Int) (fetch : Except Err EpochInfo) :
    ∀ (accounts : List VoteAccount) (st : CacheState) (rc rp : ℚ)
      (cc pc : Int) (tr : List Action) (out : ℚ × ℚ × Int × Int × CacheState),
      currentLoop pk net env now fetch accounts st rc rp cc pc = some (tr, out) →
      voteHeightDiffs tr
        = (accounts.filter fun v => decide (v.nodePubkey = pk)).map
            (fun v => net - (v.lastVote : ℚ)) := by
  intro accounts
  induction accounts with
  | nil =>
    intro st rc rp cc pc tr out h
    simp only [currentLoop] at h
    obtain ⟨htr, -⟩ := Prod.mk.injEq .. ▸ Option.some.inj h
    rw [← htr]
    rfl
  | cons vote rest ih =>
    intro st rc rp cc pc tr out h
    simp only [currentLoop] at h
    cases hc : calcualteEpochVoteCredits st now fetch vote.epochCredits with
    | none => rw [hc] at h; simp at h
    | some p =>
      obtain ⟨⟨cC, pC⟩, st'⟩ := p
      rw [hc] at h
      dsimp only at h
      cases hrec : currentLoop pk net env now fetch rest st'
          (if cC ≠ 0 ∧ pC ≠ 0 then (rc + cC, rp + pC, cc + 1, pc + 1)
            else (rc, rp, cc, pc)).1
          (if cC ≠ 0 ∧ pC ≠ 0 then (rc + cC, rp + pC, cc + 1, pc + 1)
            else (rc, rp, cc, pc)).2.1
          (if cC ≠ 0 ∧ pC ≠ 0 then (rc + cC, rp + pC, cc + 1, pc + 1)
            else (rc, rp, cc, pc)).2.2.1
          (if cC ≠ 0 ∧ pC ≠ 0 then (rc + cC, rp + pC, cc + 1, pc + 1)
            else (rc, rp, cc, pc)).2.2.2 with
      | none => rw [hrec] at h; simp at h
      | some q =>
        obtain ⟨tr2, out2⟩ := q
        rw [hrec] at h
        dsimp only at h
        obtain ⟨htr, -⟩ := Prod.mk.injEq .. ▸ Option.some.inj h
        rw [← htr, voteHeightDiffs_append]
        have hrest := ih _ _ _ _ _ _ _ hrec
        rw [hrest, List.filter_cons]
        by_cases hv : vote.nodePubkey = pk
        · rw [if_pos hv, if_pos (by simp [hv]), voteHeightDiffs_tracked,
            List.map_cons]
          rfl
        · rw [if_neg hv, if_neg (by simp [hv])]
          rfl

/-- Exactly one matching record: the mapped differences collapse to `[0]`
because the first (unique) match also supplies `netresult`. -/
theorem netVoteResult_unique_match (pk : String) :
    ∀ l : List VoteAccount,
      (l.countP fun v => decide (v.nodePubkey = pk)) = 1 →
      ((l.filter fun v => decide (v.nodePubkey = pk)).map
          (fun v => netVoteResult pk l - (v.lastVote : ℚ))) = [0] := by
  intro l
  induction l with
  | nil => intro h; simp [List.countP_nil] at h
  | cons v rest ih =>
    intro h
    rw [List.countP_cons] at h
    by_cases hv : v.nodePubkey = pk
    · have hone : (if (fun v => decide (v.nodePubkey = pk)) v = true
          then 1 else 0) = 1 := by simp [hv]
      rw [hone] at h
      have hrest : (rest.countP fun v => decide (v.nodePubkey = pk)) = 0 := by
        omega
      have hfil : (rest.filter fun v => decide (v.nodePubkey = pk)) = [] :=
        List.filter_eq_nil_iff.mpr (List.countP_eq_zero.mp hrest)
      rw [List.filter_cons, if_pos (by simp [hv]), hfil, List.map_cons,
        List.map_nil]
      simp only [netVoteResult, if_pos hv, sub_self]
    · have hzero : (if (fun v => decide (v.nodePubkey = pk)) v = true
          then 1 else 0) = 0 := by simp [hv]
      rw [hzero] at h
      have hrest : (rest.countP fun v => decide (v.nodePubkey = pk)) = 1 := by
        omega
      rw [List.filter_cons, if_neg (by simp [hv])]
      have hmap := ih hrest
      simp only [netVoteResult, if_neg hv]
      exact hmap

/-- C10 (amended): whenever the tracked node identity appears exactly once
in the current set, every emitted vote-height difference of the pass is 0,
because both operands are read from the `lastVote` of that unique record;
with several records sharing the tracked identity the later emissions are
`firstMatch.lastVote − record.lastVote` instead. -/
theorem voteHeightDiff_zero_unique_identity :
    ∀ (pk : String) (resp : VoteAccountsResult) (st : CacheState) (now : Int)
      (fetch : Except Err EpochInfo) (env : AlertEnv) (tr : List Action)
      (stF : CacheState),
      (resp.current.countP fun v => decide (v.nodePubkey = pk)) = 1 →
      mustEmitMetrics pk resp st now fetch env = some (tr, stF) →
      voteHeightDiffs tr = [0] := by
  intro pk resp st now fetch env tr stF huniq h
  unfold mustEmitMetrics at h
  dsimp only at h
  cases hl : currentLoop pk (netVoteResult pk resp.current) env now fetch
      resp.current (getCachedEpochInfo st now fetch).state 0 0 0 0 with
  | none => rw [hl] at h; simp at h
  | some p =>
    obtain ⟨tr2, rc, rp, cc, pc, stF2⟩ := p
    rw [hl] at h
    dsimp only at h
    obtain ⟨htr, -⟩ := Prod.mk.injEq .. ▸ Option.some.inj h
    rw [← htr]
    rw [voteHeightDiffs_append, voteHeightDiffs_append, voteHeightDiffs_append,
      voteHeightDiffs_append, voteHeightDiffs_lastVoteLoop,
      voteHeightDiffs_delinquentLoop,
      voteHeightDiffs_currentLoop pk (netVoteResult pk resp.current) env now
        fetch resp.current _ _ _ _ _ _ _ hl,
      netVoteResult_unique_match pk resp.current huniq]
    simp +decide [voteHeightDiffs, List.filterMap_cons]

/-- A snapshot whose current set holds the tracked identity exactly once. -/
def c10Resp : VoteAccountsResult :=
  ⟨[cxVa1, ⟨"other", "v9", 2, 99, 3, 5, true, []⟩], []⟩

/-- The emission trace of the pass over `c10Resp` with a live cached epoch. -/
def c10Trace : List Action :=
  [Action.metric "solana_active_validators" 0 ["delinquent"],
   Action.metric "solana_active_validators" 2 ["current"],
   Action.metric "solana_validator_last_vote" 10 ["v1", "me"],
   Action.metric "solana_validator_root_slot" 3 ["v1", "me"],
   Action.metric "solana_vote_account" 1 ["current"],
   Action.metric "solana_val_commission" 5 ["5"],
   Action.metric "solana_validator_delinquent" 0 ["v1", "me"],
   Action.metric "solana_validator_activated_stake" ((1 : ℚ) / 1000000000)
     ["v1", "me"],
   Action.metric "solana_val_status" 1 ["Voting"],
   Action.metric "solana_validator_vote_height" 10 ["validator"],
   Action.metric "solana_network_vote_height" 10 ["network"],
   Action.metric "solana_vote_height_diff" 0 ["vote height difference"],
   Action.metric "solana_validator_vote_credits" 0 ["current"],
   Action.metric "solana_validator_vote_credits" 0 ["previous"],
   Action.metric "solana_network_vote_credits" ((0 : ℚ) / (0 : ℚ)) ["current"],
   Action.metric "solana_network_vote_credits" ((0 : ℚ) / (0 : ℚ)) ["previous"]]

/-- Witness for C10 (amended) at a concrete input: the tracked identity
appears exactly once in the current set of `c10Resp` and the single emitted
vote-height difference is 0. -/
theorem voteHeightDiff_zero_unique_identity_witness :
    voteHeightDiffs c10Trace = [0] :=
  voteHeightDiff_zero_unique_identity "me" c10Resp ⟨some ⟨7⟩, 0⟩ 0 (.error "e")
    quietEnv c10Trace ⟨some ⟨7⟩, 0⟩ (by decide)
    (by simp +decide [mustEmitMetrics, currentLoop, calcualteEpochVoteCredits,
          getCachedEpochInfo, epochCreditsScan, trackedCurrentActions,
          AlertValidatorStatus, alertLoop, netVoteResult, lastVoteLoop,
          delinquentLoop, c10Resp, cxVa1, quietEnv, c10Trace])

end SolanaMC
